/-
Verification of the architecture-configuration compiler (src/create.py)
against its natural-language specification.

The embedding models:
- the value universe reachable from an OmegaConf template after
  `OmegaConf.to_container` (ints, bools, floats, strings, None, lists);
- LayerSpec / Template, the data model of §3 of the spec;
- `process_model` (layer-graph transformer), `CustomYAMLDumper.represent_list`
  (serializer flow-style decision), the name composition, the consistency
  gates and the output-path computation of `main`.

Python-specific conventions captured here:
- `x in s` on strings is contiguous-substring membership (`pyIn`);
- `bool` is a subclass of `int`, so `isinstance(b, int)` is true for booleans;
- truthiness of an optional string: `None` and `""` are falsy;
- `set(keys)` iterates in an unspecified order, modelled by an explicit
  `ord` parameter ranging over permutations of the declared key order.

Option fields HEAD / ATTENTION etc. are modelled as `Option String`
(`none` = YAML null / missing, which the gates turn into a Python error
where the code applies `in` to it).
-/
import Mathlib

namespace EOLO

/-- Values produced by `OmegaConf.to_container` on a template: Python
ints, bools, floats, strings, `None` and lists.  Floats carry a rational
payload; only their `isinstance` class matters to the code modelled here. -/
inductive PyVal where
  | pyInt : Int → PyVal
  | pyBool : Bool → PyVal
  | pyFloat : Rat → PyVal
  | pyStr : String → PyVal
  | pyNone : PyVal
  | pyList : List PyVal → PyVal

/-- `isinstance(x, int)` — in Python, `bool` is a subclass of `int`. -/
def PyVal.isInstInt : PyVal → Bool
  | .pyInt _ => true
  | .pyBool _ => true
  | _ => false

/-- `isinstance(x, list)`. -/
def PyVal.isInstList : PyVal → Bool
  | .pyList _ => true
  | _ => false

/-- `isinstance(x, str)`. -/
def PyVal.isInstStr : PyVal → Bool
  | .pyStr _ => true
  | _ => false

/-- `isinstance(x, (int, float))`. -/
def PyVal.isInstNum : PyVal → Bool
  | .pyInt _ => true
  | .pyBool _ => true
  | .pyFloat _ => true
  | _ => false

/-- The `from` field of a LayerSpec: a single index or a list of indices. -/
inductive FromVal where
  | single : Int → FromVal
  | list : List Int → FromVal
deriving DecidableEq

/-- One node of the layer graph: `[from, repeats, module, args]`. -/
structure LayerSpec where
  frm : FromVal
  repeats : Int
  module : String
  args : List PyVal

/-- A template: the five reserved fields plus the open association list of
option fields in their declared order (`HEAD`, `ATTENTION`, ...), each
holding a string or YAML null (`none`). -/
structure Template where
  name : String
  nc : Int
  scales : List PyVal
  backbone : List LayerSpec
  head : List LayerSpec
  options : List (String × Option String)

/-- Look an option field up by key; missing key and null value coincide
as `none`. -/
def Template.getOpt (t : Template) (k : String) : Option String :=
  (t.options.lookup k).join

/-- Contiguous-substring test on character lists (Python `needle in hay`). -/
def listHasInfix : List Char → List Char → Bool
  | [], needle => needle.isEmpty
  | h :: tl, needle => needle.isPrefixOf (h :: tl) || listHasInfix tl needle

/-- Python string membership `needle in hay`. -/
def pyIn (needle hay : String) : Bool :=
  listHasInfix hay.data needle.data

/-- Python truthiness of an optional string: `None` and `""` are falsy. -/
def strTruthy : Option String → Bool
  | none => false
  | some s => s ≠ ""

/-- The layer appended by `process_model`: `[-1, 1, attention, []]`. -/
def attnLayer (a : String) : LayerSpec :=
  { frm := .single (-1), repeats := 1, module := a, args := [] }

/-- The per-layer `from` rewrite of `process_model`: a single `int` ≥ 10 is
incremented; in a list, every `int` element ≥ 10 is incremented; everything
else (negative or < 10) stays. -/
def shiftFrom : FromVal → FromVal
  | .single i => if 10 ≤ i then .single (i + 1) else .single i
  | .list xs => .list (xs.map fun v => if 10 ≤ v then v + 1 else v)

/-- `process_model` (create.py:120-135): when `cfg.template.ATTENTION` is
truthy, append `[-1, 1, ATTENTION, []]` to the backbone and rewrite every
head layer's `from`; otherwise the template passes through unchanged. -/
def process_model (t : Template) : Template :=
  if strTruthy (t.getOpt "ATTENTION") then
    { t with
      backbone := t.backbone ++ [attnLayer ((t.getOpt "ATTENTION").getD "")]
      head := t.head.map fun l => { l with frm := shiftFrom l.frm } }
  else t

/-- Name composition (create.py:140-141): `used_keys` is the Python set of
non-reserved keys; `ord` is the order in which that set iterates, an
unspecified permutation of the declared key order.  Falsy (null or empty)
values are dropped by the comprehension's filter. -/
def composeName (t : Template) (ord : List String) : String :=
  t.name ++ "-" ++ "-".intercalate
    (ord.filterMap fun k =>
      if strTruthy (t.getOpt k) then some ((t.getOpt k).getD "") else none)

/-- The declared keys of a template's option fields, in declared order. -/
def Template.optKeys (t : Template) : List String :=
  t.options.map Prod.fst

/-- Why `main` stopped before writing a file. -/
inductive SkipReason where
  | headMismatch
  | attnMismatch
deriving DecidableEq

/-- Outcome of one generation request. -/
inductive MainResult where
  | error : MainResult
  | skipped : SkipReason → MainResult
  | written : String → Template → MainResult

/-- Destination directory (create.py:155-156): the `-run_name` suffix is
attached exactly when `run_name` differs from the literal `"create"`. -/
def outDir (root user time run_name : String) : String :=
  root ++ "/configs/model/" ++ user ++ "/generate/" ++ time ++
    (if run_name ≠ "create" then "-" ++ run_name else "")

/-- `main` (create.py:139-186), minus I/O: compose the name, run the two
consistency gates, rename the template and compute the output path.  A null
or missing `HEAD` makes `"4Head" in cfg.template.HEAD` raise, modelled as
`.error`.  `process_model` is NOT applied: the call on line 153 is commented
out in the source. -/
def mainRun (root user time run_name : String) (t : Template)
    (ord : List String) : MainResult :=
  match t.getOpt "HEAD" with
  | none => .error
  | some h =>
    if (pyIn "4Head" t.name).xor (pyIn "4Head" h) then
      .skipped .headMismatch
    else if (pyIn "attn" t.name).xor (t.getOpt "ATTENTION").isSome then
      .skipped .attnMismatch
    else
      .written (outDir root user time run_name ++ "/" ++ composeName t ord ++ ".yaml")
        { t with name := composeName t ord }

/-- File-system writes: `open(path, 'w')` replaces whatever was at `path`. -/
def writeFile (fs : String → Option String) (p c : String) :
    String → Option String :=
  fun q => if q = p then some c else fs q

/-- `os.makedirs` guarded by `os.path.exists`: create the directory only
when absent. -/
def ensureDir (dirs : List String) (d : String) : List String :=
  if d ∈ dirs then dirs else dirs ++ [d]

/-- Flow-style test 1 of `CustomYAMLDumper.represent_list` (create.py:26-32):
a 4-element list `[from, repeats, module, args]` with `from` an int or a
list, `repeats` an int, `module` a str, `args` a list. -/
def isLayerFormat : List PyVal → Bool
  | [a, b, c, d] =>
    (a.isInstInt || a.isInstList) && b.isInstInt && c.isInstStr && d.isInstList
  | _ => false

/-- Flow-style test 2 of `represent_list` (create.py:34-38): a 3-element
all-numeric list. -/
def isScalesFormat (l : List PyVal) : Bool :=
  l.length == 3 && l.all PyVal.isInstNum

/-- The serializer's inline/block decision: `true` means the list is
rendered as a single-line flow sequence, `false` means block form
(create.py:26-41). -/
def representListFlow (l : List PyVal) : Bool :=
  isLayerFormat l || isScalesFormat l

/-- `isinstance`-style test for "a list of integers" (used only to state
the spec's version of the layer-shape rule). -/
def PyVal.isIntList : PyVal → Bool
  | .pyList xs => xs.all PyVal.isInstInt
  | _ => false

/-- Modelled from the spec's words (claim C7): the layer shape requires
`from` to be "an integer or a list of integers". -/
def specLayerFormat : List PyVal → Bool
  | [a, b, c, d] =>
    (a.isInstInt || a.isIntList) && b.isInstInt && c.isInstStr && d.isInstList
  | _ => false

/-- Modelled from the spec's words (claim C7): flow style exactly for the
spec's layer shape and the 3-element all-numeric shape. -/
def specRepresentFlow (l : List PyVal) : Bool :=
  specLayerFormat l || isScalesFormat l

/-- Modelled from the amended reading of the serializer rule: `from` may be
an integer or a list of arbitrary elements, exactly as `isinstance`
checks it. -/
def amendedRepresentFlow (l : List PyVal) : Bool :=
  (match l with
   | [a, b, c, d] =>
     (a.isInstInt || a.isInstList) && b.isInstInt && c.isInstStr && d.isInstList
   | _ => false)
  || (l.length == 3 && l.all PyVal.isInstNum)

/-- Modelled from the spec's words (claim C6): the joined option values
taken in the template's declared field order. -/
def declaredName (t : Template) : String :=
  t.name ++ "-" ++ "-".intercalate
    (t.optKeys.filterMap fun k =>
      if strTruthy (t.getOpt k) then some ((t.getOpt k).getD "") else none)

/-- Modelled from the spec: the default value of `run_name` comes from the
absent `configs/create.yaml`; the code compares against the literal
`"create"`, hydra's config name. -/
def defaultRunName : String := "create"

def MainResult.template? : MainResult → Option Template
  | .written _ t => some t
  | _ => none

def MainResult.path? : MainResult → Option String
  | .written p _ => some p
  | _ => none

def MainResult.isWritten : MainResult → Bool
  | .written _ _ => true
  | _ => false

def MainResult.isSkipped : MainResult → Bool
  | .skipped _ => true
  | _ => false

/-! ### Concrete templates for the spec's scenarios -/

/-- A generic backbone entry (content irrelevant to the claims). -/
def convLayer : LayerSpec :=
  { frm := .single (-1), repeats := 1, module := "Conv", args := [.pyInt 64] }

/-- The spec's concrete head entry `[12, 1, "Detect", [256]]`. -/
def detectLayer : LayerSpec :=
  { frm := .single 12, repeats := 1, module := "Detect", args := [.pyInt 256] }

/-- A head entry with list-form `from = [-1, 8]`. -/
def concatLayer : LayerSpec :=
  { frm := .list [-1, 8], repeats := 1, module := "Concat", args := [.pyInt 1] }

/-- The spec's concrete scenario: backbone length 10, head
`[[12, 1, "Detect", [256]]]`, `ATTENTION = "EIEStem"`; named so that both
consistency gates pass. -/
def tScenario : Template :=
  { name := "yolo11-attn"
    nc := 80
    scales := [.pyFloat (33 / 100), .pyFloat (1 / 4), .pyInt 1024]
    backbone := List.replicate 10 convLayer
    head := [detectLayer]
    options := [("HEAD", some "AFPNHead"), ("ATTENTION", some "EIEStem")] }

/-- The set-iteration order used when running `tScenario` through `main`. -/
def ordScenario : List String := ["HEAD", "ATTENTION"]

/-- The spec's list-form scenario: same template, head `from = [-1, 8]`. -/
def tListScenario : Template :=
  { tScenario with head := [concatLayer] }

/-- A template whose name advertises a multi-head topology that the `HEAD`
option does not select. -/
def tHeadMismatch : Template :=
  { name := "yolo11-4Head"
    nc := 80
    scales := []
    backbone := List.replicate 10 convLayer
    head := [detectLayer]
    options := [("HEAD", some "Detect"), ("ATTENTION", none)] }

/-- A template whose `ATTENTION` field is the empty string while its name
advertises an attention stage. -/
def tEmptyAttn : Template :=
  { name := "yolo11-attn"
    nc := 80
    scales := []
    backbone := List.replicate 10 convLayer
    head := [detectLayer]
    options := [("HEAD", some "Detect"), ("ATTENTION", some "")] }

/-- A template that selects an attention module without advertising it in
its name. -/
def tAttnMismatch : Template :=
  { name := "yolo11"
    nc := 80
    scales := []
    backbone := List.replicate 10 convLayer
    head := [detectLayer]
    options := [("HEAD", some "Detect"), ("ATTENTION", some "EIEStem")] }

/-- A template with two truthy option fields, to exhibit order sensitivity. -/
def tTwoOpts : Template :=
  { name := "n"
    nc := 1
    scales := []
    backbone := []
    head := []
    options := [("A", some "x"), ("B", some "y")] }

/-- A template with no option fields at all. -/
def tNoOpts : Template :=
  { name := "yolo11"
    nc := 80
    scales := []
    backbone := List.replicate 10 convLayer
    head := [detectLayer]
    options := [] }

/-- A template whose `HEAD` field is YAML null. -/
def tNullHead : Template :=
  { name := "yolo11"
    nc := 80
    scales := []
    backbone := []
    head := []
    options := [("HEAD", none), ("ATTENTION", some "EIEStem")] }

/-- A consistent template accepted by both gates (no attention). -/
def tAccepted : Template :=
  { name := "yolo11"
    nc := 80
    scales := []
    backbone := List.replicate 10 convLayer
    head := [detectLayer]
    options := [("HEAD", some "AFPNHead"), ("ATTENTION", none)] }

/-! ### Helper lemmas -/

lemma strTruthy_of_some {t : Template} {k a : String}
    (hA : t.getOpt k = some a) (ha : a ≠ "") :
    strTruthy (t.getOpt k) = true := by
  rw [hA]; simpa [strTruthy]

/-- Inversion of `mainRun`: whenever a file is written, its path and the
written template are the ones `main` constructs. -/
lemma mainRun_written_inv {root user time rn : String} {t : Template}
    {ord : List String} {p : String} {t' : Template}
    (hw : mainRun root user time rn t ord = .written p t') :
    p = outDir root user time rn ++ "/" ++ composeName t ord ++ ".yaml" ∧
    t' = { t with name := composeName t ord } := by
  unfold mainRun at hw
  split at hw
  · cases hw
  · split_ifs at hw
    all_goals cases hw
    all_goals exact ⟨rfl, rfl⟩

/-! ### Claims -/

/-- C1 (amended): when the ATTENTION option field is truthy, `process_model`
appends `[-1, 1, ATTENTION, []]` to the backbone and applies the `from`
rewrite to every head layer; the generation pipeline (`main`), however,
never invokes `process_model` — the call is commented out — so the document
it writes carries the template's backbone and head unchanged. -/
theorem c1_attention_append_not_wired (t : Template) (a : String)
    (hA : t.getOpt "ATTENTION" = some a) (ha : a ≠ "") :
    (process_model t).backbone = t.backbone ++ [attnLayer a] ∧
    (process_model t).head = (t.head.map fun l => { l with frm := shiftFrom l.frm }) ∧
    ∀ root user time rn ord p t',
      mainRun root user time rn t ord = .written p t' →
      t'.backbone = t.backbone ∧ t'.head = t.head := by
  have htr := strTruthy_of_some hA ha
  have hpm : process_model t =
      { t with backbone := t.backbone ++ [attnLayer a]
               head := t.head.map fun l => { l with frm := shiftFrom l.frm } } := by
    rw [process_model, if_pos htr, hA]
    rfl
  refine ⟨by rw [hpm], by rw [hpm], ?_⟩
  intro root user time rn ord p t' hw
  obtain ⟨-, ht⟩ := mainRun_written_inv hw
  subst ht
  exact ⟨rfl, rfl⟩

/-- C1 witness at the spec's concrete scenario. -/
theorem c1_attention_append_not_wired_witness :
    tScenario.getOpt "ATTENTION" = some "EIEStem" ∧
    ((process_model tScenario).backbone = tScenario.backbone ++ [attnLayer "EIEStem"] ∧
     (process_model tScenario).head =
       (tScenario.head.map fun l => { l with frm := shiftFrom l.frm }) ∧
     ∀ root user time rn ord p t',
       mainRun root user time rn tScenario ord = .written p t' →
       t'.backbone = tScenario.backbone ∧ t'.head = tScenario.head) :=
  ⟨rfl, c1_attention_append_not_wired tScenario "EIEStem" rfl (by decide)⟩

/-- C1 counterexample: in the spec's concrete scenario the pipeline does
write a file, but the written document's backbone still has 10 entries and
its head entry still reads `from = 12` — not the 11 entries and `from = 13`
the claim asserts. -/
theorem c1_counterexample_no_append_in_pipeline :
    strTruthy (tScenario.getOpt "ATTENTION") = true ∧
    (mainRun "R" "u" "T" "create" tScenario ordScenario).template?.map
        (fun t => (t.backbone.length, t.head.map fun l => l.frm)) =
      some (10, [FromVal.single 12]) := by
  constructor
  · decide
  · decide

/-- C2: the `from` rewrite of `process_model` on every head layer:
a single absolute index ≥ 10 is incremented by exactly 1, a single index
< 10 (negatives included) is unchanged, and a list-valued `from` gets the
same rule element-wise. -/
theorem c2_head_from_rewrite (t : Template) (a : String)
    (hA : t.getOpt "ATTENTION" = some a) (ha : a ≠ "")
    (i : ℕ) (layer : LayerSpec) (hl : t.head.get? i = some layer) :
    ∃ layer2 : LayerSpec, (process_model t).head.get? i = some layer2 ∧
      (∀ j : Int, layer.frm = .single j →
        (10 ≤ j → layer2.frm = .single (j + 1)) ∧
        (j < 10 → layer2.frm = .single j)) ∧
      (∀ xs : List Int, layer.frm = .list xs →
        ∃ ys : List Int, layer2.frm = .list ys ∧ ys.length = xs.length ∧
          ∀ (k : ℕ) (v : Int), xs.get? k = some v →
            (10 ≤ v → ys.get? k = some (v + 1)) ∧
            (v < 10 → ys.get? k = some v)) := by
  have htr := strTruthy_of_some hA ha
  have hh : (process_model t).head =
      t.head.map fun l => { l with frm := shiftFrom l.frm } := by
    rw [process_model, if_pos htr]
  refine ⟨{ layer with frm := shiftFrom layer.frm }, ?_, ?_, ?_⟩
  · rw [hh, List.get?_map, hl]
    rfl
  · intro j hj
    refine ⟨fun h10 => ?_, fun hlt => ?_⟩
    · show shiftFrom layer.frm = FromVal.single (j + 1)
      rw [hj]
      show (if 10 ≤ j then FromVal.single (j + 1) else FromVal.single j) =
        FromVal.single (j + 1)
      rw [if_pos h10]
    · show shiftFrom layer.frm = FromVal.single j
      rw [hj]
      show (if 10 ≤ j then FromVal.single (j + 1) else FromVal.single j) =
        FromVal.single j
      rw [if_neg (by omega)]
  · intro xs hxs
    refine ⟨xs.map fun v => if 10 ≤ v then v + 1 else v, ?_, by simp, ?_⟩
    · show shiftFrom layer.frm = _
      rw [hxs]
      rfl
    · intro k v hv
      refine ⟨fun h10 => ?_, fun hlt => ?_⟩
      · rw [List.get?_map, hv]
        show some (if 10 ≤ v then v + 1 else v) = some (v + 1)
        rw [if_pos h10]
      · rw [List.get?_map, hv]
        show some (if 10 ≤ v then v + 1 else v) = some v
        rw [if_neg (by omega)]

/-- C2 witness at the spec's concrete scenario (head entry `from = 12`). -/
theorem c2_head_from_rewrite_witness :
    tScenario.getOpt "ATTENTION" = some "EIEStem" ∧
    tScenario.head.get? 0 = some detectLayer ∧
    (∃ layer2 : LayerSpec, (process_model tScenario).head.get? 0 = some layer2 ∧
      (∀ j : Int, detectLayer.frm = .single j →
        (10 ≤ j → layer2.frm = .single (j + 1)) ∧
        (j < 10 → layer2.frm = .single j)) ∧
      (∀ xs : List Int, detectLayer.frm = .list xs →
        ∃ ys : List Int, layer2.frm = .list ys ∧ ys.length = xs.length ∧
          ∀ (k : ℕ) (v : Int), xs.get? k = some v →
            (10 ≤ v → ys.get? k = some (v + 1)) ∧
            (v < 10 → ys.get? k = some v))) :=
  ⟨rfl, rfl, c2_head_from_rewrite tScenario "EIEStem" rfl (by decide) 0 detectLayer rfl⟩

/-- C3 counterexample: with backbone length 10, attention set and head
`from = [-1, 8]`, the transformer leaves the list as `[-1, 8]`; it is not
rewritten to the `[-1, 9]` the claim states. -/
theorem c3_counterexample_list_unchanged :
    (process_model tListScenario).head.map (fun l => l.frm) = [FromVal.list [-1, 8]] ∧
    ¬ (process_model tListScenario).head.map (fun l => l.frm) = [FromVal.list [-1, 9]] := by
  constructor
  · decide
  · decide

/-- C3 (amended): in the list-form scenario the head `from = [-1, 8]` is
left entirely unchanged — `-1` is relative and `8 < 10` — even though the
attention layer is appended to the backbone. -/
theorem c3_list_rewrite_unchanged :
    (process_model tListScenario).head.map (fun l => l.frm) = [FromVal.list [-1, 8]] ∧
    (process_model tListScenario).backbone =
      tListScenario.backbone ++ [attnLayer "EIEStem"] :=
  ⟨by decide, rfl⟩

/-- With a string-valued `HEAD`, `mainRun` is the two-gate cascade. -/
lemma mainRun_eq_of_head {root user time rn : String} {t : Template}
    {ord : List String} {h : String} (hH : t.getOpt "HEAD" = some h) :
    mainRun root user time rn t ord =
      (if (pyIn "4Head" t.name).xor (pyIn "4Head" h) then
        MainResult.skipped .headMismatch
      else if (pyIn "attn" t.name).xor (t.getOpt "ATTENTION").isSome then
        MainResult.skipped .attnMismatch
      else
        MainResult.written
          (outDir root user time rn ++ "/" ++ composeName t ord ++ ".yaml")
          { t with name := composeName t ord }) := by
  unfold mainRun
  rw [hH]

/-- C4: the multi-head gate: with a string `HEAD`, generation is skipped
with the head-mismatch warning exactly when the presence of `"4Head"` in
the template name differs from its presence in `HEAD`. -/
theorem c4_multihead_gate (root user time rn : String) (t : Template)
    (ord : List String) (h : String) (hH : t.getOpt "HEAD" = some h) :
    ((pyIn "4Head" t.name).xor (pyIn "4Head" h) = true →
      mainRun root user time rn t ord = .skipped .headMismatch) ∧
    ((pyIn "4Head" t.name).xor (pyIn "4Head" h) = false →
      mainRun root user time rn t ord ≠ .skipped .headMismatch) := by
  constructor
  · intro hx
    rw [mainRun_eq_of_head hH, if_pos hx]
  · intro hx
    rw [mainRun_eq_of_head hH, if_neg (by simp [hx])]
    intro hc
    split_ifs at hc
    all_goals simp at hc

/-- C4 witness: a template named `...4Head` whose `HEAD` option carries no
multi-head marker is skipped with the head-mismatch warning. -/
theorem c4_multihead_gate_witness :
    tHeadMismatch.getOpt "HEAD" = some "Detect" ∧
    (pyIn "4Head" tHeadMismatch.name).xor (pyIn "4Head" "Detect") = true ∧
    mainRun "R" "u" "T" "create" tHeadMismatch [] = .skipped .headMismatch :=
  ⟨rfl, by decide,
    (c4_multihead_gate "R" "u" "T" "create" tHeadMismatch [] "Detect" rfl).1
      (by decide)⟩

/-- C5 counterexample: with `ATTENTION = ""` (present but empty) and an
`attn`-marked name, the claim demands rejection, but the code compares
against `is not None`, accepts the request and writes the file. -/
theorem c5_counterexample_empty_attention :
    pyIn "attn" tEmptyAttn.name = true ∧
    strTruthy (tEmptyAttn.getOpt "ATTENTION") = false ∧
    (mainRun "R" "u" "T" "create" tEmptyAttn ["HEAD", "ATTENTION"]).isSkipped = false ∧
    (mainRun "R" "u" "T" "create" tEmptyAttn ["HEAD", "ATTENTION"]).isWritten = true :=
  ⟨by decide, by decide, by decide, by decide⟩

/-- C5 (amended): after the multi-head gate passes, the attention gate
rejects with the attention-mismatch warning exactly when the presence of
`"attn"` in the name differs from `ATTENTION` being non-None; an empty
string counts as selected.  When they agree, the request is written. -/
theorem c5_attention_gate_is_not_none (root user time rn : String)
    (t : Template) (ord : List String) (h : String)
    (hH : t.getOpt "HEAD" = some h)
    (h1 : (pyIn "4Head" t.name).xor (pyIn "4Head" h) = false) :
    ((pyIn "attn" t.name).xor (t.getOpt "ATTENTION").isSome = true →
      mainRun root user time rn t ord = .skipped .attnMismatch) ∧
    ((pyIn "attn" t.name).xor (t.getOpt "ATTENTION").isSome = false →
      mainRun root user time rn t ord =
        .written (outDir root user time rn ++ "/" ++ composeName t ord ++ ".yaml")
          { t with name := composeName t ord }) := by
  constructor
  · intro hx
    rw [mainRun_eq_of_head hH, if_neg (by simp [h1]), if_pos hx]
  · intro hx
    rw [mainRun_eq_of_head hH, if_neg (by simp [h1]), if_neg (by simp [hx])]

/-- C5 witness: a name with no attention marker but a selected attention
module is skipped with the attention-mismatch warning. -/
theorem c5_attention_gate_is_not_none_witness :
    tAttnMismatch.getOpt "HEAD" = some "Detect" ∧
    (pyIn "4Head" tAttnMismatch.name).xor (pyIn "4Head" "Detect") = false ∧
    (pyIn "attn" tAttnMismatch.name).xor (tAttnMismatch.getOpt "ATTENTION").isSome = true ∧
    mainRun "R" "u" "T" "create" tAttnMismatch [] = .skipped .attnMismatch :=
  ⟨rfl, by decide, by decide,
    (c5_attention_gate_is_not_none "R" "u" "T" "create" tAttnMismatch [] "Detect"
      rfl (by decide)).1 (by decide)⟩

/-- C6 counterexample: `["B", "A"]` is a possible iteration order of the
Python set of keys `{A, B}`, and under it the composed name differs from
the declared-field-order name. -/
theorem c6_counterexample_set_order :
    List.Perm ["B", "A"] tTwoOpts.optKeys ∧
    composeName tTwoOpts ["B", "A"] ≠ declaredName tTwoOpts :=
  ⟨by decide, by decide⟩

/-- C6 (amended): for any iteration order of the key set, the composed name
is `template.name ++ "-" ++` the `-`-joined non-empty option values in that
order; the multiset of joined segments is the declared one, but the order
is whatever the set iteration yields, not necessarily the declared field
order. -/
theorem c6_name_segments_permutation (t : Template) (ord : List String)
    (hperm : List.Perm ord t.optKeys) :
    ∃ vs : List String,
      List.Perm vs (t.optKeys.filterMap fun k =>
        if strTruthy (t.getOpt k) then some ((t.getOpt k).getD "") else none) ∧
      composeName t ord = t.name ++ "-" ++ "-".intercalate vs :=
  ⟨_, hperm.filterMap _, rfl⟩

/-- C6 witness at the two-option template with the swapped order. -/
theorem c6_name_segments_permutation_witness :
    List.Perm ["B", "A"] tTwoOpts.optKeys ∧
    (∃ vs : List String,
      List.Perm vs (tTwoOpts.optKeys.filterMap fun k =>
        if strTruthy (tTwoOpts.getOpt k) then some ((tTwoOpts.getOpt k).getD "")
        else none) ∧
      composeName tTwoOpts ["B", "A"] =
        tTwoOpts.name ++ "-" ++ "-".intercalate vs) :=
  ⟨by decide, c6_name_segments_permutation tTwoOpts ["B", "A"] (by decide)⟩

/-- C7 counterexample: a 4-element list whose first slot is a list of
strings is not of the claim's shape (`from` an integer or a list of
integers), yet the dumper renders it inline: the code only checks
`isinstance(data[0], (int, list))`. -/
theorem c7_counterexample_nonint_list_from :
    representListFlow [PyVal.pyList [PyVal.pyStr "a"], PyVal.pyInt 1,
        PyVal.pyStr "m", PyVal.pyList []] = true ∧
    specRepresentFlow [PyVal.pyList [PyVal.pyStr "a"], PyVal.pyInt 1,
        PyVal.pyStr "m", PyVal.pyList []] = false :=
  ⟨rfl, rfl⟩

/-- C7 (amended): the dumper's inline/block decision agrees with the rule
in which the first slot may be an integer or any list. -/
theorem c7_flow_style_decision (l : List PyVal) :
    representListFlow l = amendedRepresentFlow l := by
  rcases l with _ | ⟨a, _ | ⟨b, _ | ⟨c, _ | ⟨d, _ | ⟨e, tl⟩⟩⟩⟩⟩ <;> rfl

/-- C8: whenever a file is written, its path is
`<root>/configs/model/<user>/generate/<time>[-<run_name>]/<name>.yaml`
with the suffix omitted exactly for the default run name; the destination
directory is present after `ensureDir`; and writing replaces any existing
content at the path. -/
theorem c8_output_path (root user time rn : String) (t : Template)
    (ord : List String) (p : String) (t' : Template)
    (hw : mainRun root user time rn t ord = .written p t') :
    p = root ++ "/configs/model/" ++ user ++ "/generate/" ++ time ++
        (if rn = defaultRunName then "" else "-" ++ rn) ++ "/" ++
        composeName t ord ++ ".yaml" ∧
    (∀ dirs, outDir root user time rn ∈ ensureDir dirs (outDir root user time rn)) ∧
    (∀ fs c, writeFile fs p c p = some c) := by
  obtain ⟨hp, -⟩ := mainRun_written_inv hw
  refine ⟨?_, ?_, ?_⟩
  · rw [hp]
    unfold outDir defaultRunName
    by_cases hr : rn = "create"
    · simp [hr]
    · simp [hr]
  · intro dirs
    unfold ensureDir
    by_cases hd : outDir root user time rn ∈ dirs
    · rw [if_pos hd]
      exact hd
    · rw [if_neg hd]
      simp
  · intro fs c
    unfold writeFile
    rw [if_pos rfl]

/-- C8 witness: an accepted request with a non-default run name. -/
theorem c8_output_path_witness :
    mainRun "R" "u" "T" "exp1" tAccepted ordScenario =
      .written "R/configs/model/u/generate/T-exp1/yolo11-AFPNHead.yaml"
        { tAccepted with name := "yolo11-AFPNHead" } ∧
    ("R/configs/model/u/generate/T-exp1/yolo11-AFPNHead.yaml" =
        "R" ++ "/configs/model/" ++ "u" ++ "/generate/" ++ "T" ++
        (if "exp1" = defaultRunName then "" else "-" ++ "exp1") ++ "/" ++
        composeName tAccepted ordScenario ++ ".yaml" ∧
      (∀ dirs, outDir "R" "u" "T" "exp1" ∈
        ensureDir dirs (outDir "R" "u" "T" "exp1")) ∧
      (∀ fs c, writeFile fs
        "R/configs/model/u/generate/T-exp1/yolo11-AFPNHead.yaml" c
        "R/configs/model/u/generate/T-exp1/yolo11-AFPNHead.yaml" = some c)) :=
  ⟨rfl, c8_output_path "R" "u" "T" "exp1" tAccepted ordScenario
    "R/configs/model/u/generate/T-exp1/yolo11-AFPNHead.yaml"
    { tAccepted with name := "yolo11-AFPNHead" } rfl⟩

/-- If every stored option value is falsy, looking any key up gives a
falsy value. -/
lemma lookup_join_falsy (l : List (String × Option String)) (k : String)
    (h : l.all (fun pr => !strTruthy pr.2) = true) :
    strTruthy ((l.lookup k).join) = false := by
  induction l with
  | nil => rfl
  | cons a tl ih =>
    obtain ⟨k2, v⟩ := a
    simp only [List.all_cons, Bool.and_eq_true] at h
    cases hk : (k == k2) with
    | true =>
      have hl : ((k2, v) :: tl).lookup k = some v := by
        simp [List.lookup, hk]
      rw [hl]
      have hv := h.1
      rw [Bool.not_eq_true'] at hv
      simpa using hv
    | false =>
      have hl : ((k2, v) :: tl).lookup k = tl.lookup k := by
        simp [List.lookup, hk]
      rw [hl]
      exact ih h.2

/-- C9: when every option field is empty or absent, the composed name is
the template name with a trailing hyphen: the separator is appended
unconditionally. -/
theorem c9_trailing_hyphen (t : Template) (ord : List String)
    (hempty : t.options.all (fun pr => !strTruthy pr.2) = true) :
    composeName t ord = t.name ++ "-" := by
  have hnil : (ord.filterMap fun k =>
      if strTruthy (t.getOpt k) then some ((t.getOpt k).getD "") else none) = [] := by
    rw [List.filterMap_eq_nil_iff]
    intro k hk
    rw [if_neg]
    rw [Template.getOpt, lookup_join_falsy t.options k hempty]
    simp
  rw [composeName, hnil]
  show t.name ++ "-" ++ "" = t.name ++ "-"
  rw [String.append_empty]

/-- C9 witness at a template with no option fields. -/
theorem c9_trailing_hyphen_witness :
    tNoOpts.options.all (fun pr => !strTruthy pr.2) = true ∧
    composeName tNoOpts [] = "yolo11" ++ "-" :=
  ⟨rfl, c9_trailing_hyphen tNoOpts [] rfl⟩

/-- C10: a null (or missing) `HEAD` makes the multi-head gate raise —
`"4Head" in None` is a `TypeError` — rather than skip with a warning, and
the warning path is reachable only when `HEAD` is a string. -/
theorem c10_null_head_raises (root user time rn : String) (t : Template)
    (ord : List String) :
    (t.getOpt "HEAD" = none → mainRun root user time rn t ord = .error) ∧
    (∀ r, mainRun root user time rn t ord = .skipped r →
      (t.getOpt "HEAD").isSome = true) := by
  constructor
  · intro hH
    unfold mainRun
    rw [hH]
  · intro r hr
    cases hH : t.getOpt "HEAD" with
    | some h => rfl
    | none =>
      unfold mainRun at hr
      rw [hH] at hr
      cases hr

/-- C10 witness: the null-`HEAD` template makes the gate raise. -/
theorem c10_null_head_raises_witness :
    mainRun "R" "u" "T" "create" tNullHead [] = .error :=
  (c10_null_head_raises "R" "u" "T" "create" tNullHead []).1 rfl

end EOLO
